import Mathlib

/-!
# Verification of the AssemblyAI Go SDK real-time client (`realtime.go`)

A shallow embedding of the real-time streaming client of the AssemblyAI Go
SDK.  The stateful Go code (WebSocket connect handshake, the background
dispatcher goroutine, `Send`, `Disconnect`, client construction from
functional options) is embedded as pure Lean functions over explicit
environments: each fallible external interaction (dialing, reading a frame,
JSON-decoding a payload, writing) is an `Except`-valued input, and the
callback invocations the code performs are collected as a list of events.
-/

namespace AssemblyAI

/-- Go errors, as the embedding distinguishes them.  `sessionClosed` embeds
the distinguished sentinel `ErrSessionClosed`; all other errors carry their
message. -/
inductive GoError where
  | sessionClosed
  | disconnected
  | errMsg (s : String)
  deriving DecidableEq, Repr

/-- Error `ErrSessionClosed`: returned when attempting to write to a closed
session. -/
def ErrSessionClosed : GoError := .sessionClosed

/-- Go `MessageType` is a string type; these are its five constants
(`realtime.go`, lines 28–34). -/
def MessageTypeSessionBegins : String := "SessionBegins"

/-- The `SessionTerminated` discriminator value. -/
def MessageTypeSessionTerminated : String := "SessionTerminated"

/-- The `PartialTranscript` discriminator value. -/
def MessageTypePartialTranscript : String := "PartialTranscript"

/-- The `FinalTranscript` discriminator value. -/
def MessageTypeFinalTranscript : String := "FinalTranscript"

/-- The `SessionInformation` discriminator value. -/
def MessageTypeSessionInformation : String := "SessionInformation"

/-- Type `Word`: per-word confidence and timing of a transcript
(`realtime.go`, type `Word`).  `end_` embeds the Go field `End`. -/
structure Word where
  confidence : Float
  end_ : Int
  start : Int
  text : String

/-- Type `RealTimeBaseTranscript` (`realtime.go`): the fields shared by partial
and final transcripts. -/
structure RealTimeBaseTranscript where
  audioEnd : Int
  audioStart : Int
  confidence : Float
  created : String
  text : String
  words : List Word

/-- Type `FinalTranscript` (`realtime.go`). -/
structure FinalTranscript extends RealTimeBaseTranscript where
  messageType : String
  punctuated : Bool
  textFormatted : Bool

/-- Type `PartialTranscript` (`realtime.go`). -/
structure PartialTranscript extends RealTimeBaseTranscript where
  messageType : String

/-- Type `SessionBegins` (`realtime.go`). -/
structure SessionBegins where
  expiresAt : String
  messageType : String
  sessionID : String

/-- Type `SessionInformation` (`realtime.go`). -/
structure SessionInformation where
  messageType : String
  audioDurationSeconds : Float

/-- Type `SessionTerminated` (`realtime.go`). -/
structure SessionTerminated where
  messageType : String

/-- Type `RealTimeError` (`realtime.go`): the undiscriminated error envelope
`{"error": "<message>"}` checked first on the handshake response. -/
structure RealTimeError where
  error : String

/-- The registration state of a `RealTimeTranscriber` (`realtime.go`): the
Go struct holds one nullable function field per event variant, and the code
only ever tests the fields against `nil` before invoking them, so the
embedding records for each callback whether it is registered. -/
structure RealTimeTranscriber where
  onSessionBegins : Bool
  onSessionTerminated : Bool
  onSessionInformation : Bool
  onPartialTranscript : Bool
  onFinalTranscript : Bool
  onError : Bool

/-- One received wire frame, abstracted by the outcomes of the JSON
decodings the source performs on it: each field is the result of the
corresponding `json.Unmarshal(msg, &...)` call in `realtime.go` (`.error ()`
when that unmarshal fails, `.ok v` with the decoded value otherwise).
`asMessageType` is the partial decode of only the `message_type`
discriminator. -/
structure RawMsg where
  asRealTimeError : Except Unit RealTimeError
  asSessionBegins : Except Unit SessionBegins
  asMessageType : Except Unit String
  asFinalTranscript : Except Unit FinalTranscript
  asPartialTranscript : Except Unit PartialTranscript
  asSessionTerminated : Except Unit SessionTerminated
  asSessionInformation : Except Unit SessionInformation

/-- A callback invocation performed by the client, with the decoded payload
it was invoked with. -/
inductive Event where
  | sessionBeginsEv (s : SessionBegins)
  | sessionTerminatedEv (s : SessionTerminated)
  | sessionInformationEv (i : SessionInformation)
  | partialTranscriptEv (t : PartialTranscript)
  | finalTranscriptEv (t : FinalTranscript)
  | errorEv

/-- The outcome of `wsjson.Read` at the top of a dispatcher iteration:
either a frame or a transport read error. -/
inductive ReadResult where
  | ok (m : RawMsg)
  | readErr

/-- Whether a dispatcher iteration falls through to the next read
(`cont`, Go `continue` or normal fallthrough) or exits the goroutine
(`ret`, Go `return`). -/
inductive LoopCtl where
  | cont
  | ret
  deriving DecidableEq, Repr

/-- Everything one iteration of the dispatcher goroutine does: the callback
invocations in order, the session-open flag after the iteration, whether the
loop continues or returns, and whether `c.done <- true` was executed. -/
structure StepOut where
  events : List Event
  sessionOpen : Bool
  ctl : LoopCtl
  doneSignal : Bool

/-- One iteration of the dispatcher goroutine spawned by `Connect`
(`realtime.go`, the `go func` body): check the open flag, read a frame,
decode only the `message_type` discriminator, then dispatch by
discriminator.  `sessionOpen` is the flag as the iteration reads it;
`r` is what `wsjson.Read` returned. -/
def dispatchStep (t : RealTimeTranscriber) (sessionOpen : Bool) (r : ReadResult) :
    StepOut :=
  if !sessionOpen then
    ⟨[], sessionOpen, .ret, false⟩
  else
    match r with
    | .readErr =>
        ⟨if t.onError then [.errorEv] else [], sessionOpen, .ret, false⟩
    | .ok msg =>
        match msg.asMessageType with
        | .error _ =>
            ⟨if t.onError then [.errorEv] else [], sessionOpen, .ret, false⟩
        | .ok messageType =>
            if messageType = MessageTypeFinalTranscript then
              match msg.asFinalTranscript with
              | .error _ =>
                  ⟨if t.onError then [.errorEv] else [], sessionOpen, .cont, false⟩
              | .ok transcript =>
                  ⟨if transcript.text != "" && t.onFinalTranscript then
                      [.finalTranscriptEv transcript]
                    else [], sessionOpen, .cont, false⟩
            else if messageType = MessageTypePartialTranscript then
              match msg.asPartialTranscript with
              | .error _ =>
                  ⟨if t.onError then [.errorEv] else [], sessionOpen, .cont, false⟩
              | .ok transcript =>
                  ⟨if transcript.text != "" && t.onPartialTranscript then
                      [.partialTranscriptEv transcript]
                    else [], sessionOpen, .cont, false⟩
            else if messageType = MessageTypeSessionTerminated then
              match msg.asSessionTerminated with
              | .error _ =>
                  ⟨if t.onError then [.errorEv] else [], sessionOpen, .cont, false⟩
              | .ok session =>
                  ⟨if t.onSessionTerminated then [.sessionTerminatedEv session] else [],
                    false, .cont, true⟩
            else if messageType = MessageTypeSessionInformation then
              match msg.asSessionInformation with
              | .error _ =>
                  ⟨if t.onError then [.errorEv] else [], sessionOpen, .cont, false⟩
              | .ok info =>
                  ⟨if t.onSessionInformation then [.sessionInformationEv info] else [],
                    sessionOpen, .cont, false⟩
            else
              ⟨[], sessionOpen, .cont, false⟩

/-! ## Connect: authorization header, handshake, dispatcher spawn -/

/-- The `Authorization` header as `Connect` builds it (`realtime.go`,
lines 314–318): set to the raw API key exactly when `c.apiKey != ""`,
independent of whether a temporary token is configured. -/
def connectAuthHeader (apiKey : String) : Option String :=
  if apiKey != "" then some apiKey else none

/-- The environment of one `Connect` call: the outcome of
`websocket.Dial` and of the single handshake `wsjson.Read`. -/
structure ConnectEnv where
  dialResult : Except GoError Unit
  readResult : Except GoError RawMsg

/-- What a `Connect` call produces: its return value, the session-open
flag it leaves behind, whether the background dispatcher goroutine was
spawned (the single `go func` statement), and the callback invocations it
performs. -/
structure ConnectOut where
  result : Except GoError Unit
  sessionOpen : Bool
  dispatcherStarted : Bool
  events : List Event

/-- The sequential body of `Connect` (`realtime.go`, lines 313–356 and the
`go` statement at line 358): dial, read exactly one handshake message, try
the error envelope first, fail when its `error` field is non-empty, then
decode `SessionBegins`, mark the session open, invoke the session-begins
callback if registered, and spawn the dispatcher.  Decode failures are
returned as `json` errors (`errMsg "unmarshal error"`). -/
def connectHandshake (t : RealTimeTranscriber) (env : ConnectEnv) : ConnectOut :=
  match env.dialResult with
  | .error e => ⟨.error e, false, false, []⟩
  | .ok _ =>
    match env.readResult with
    | .error e => ⟨.error e, false, false, []⟩
    | .ok msg =>
      match msg.asRealTimeError with
      | .error _ => ⟨.error (.errMsg "unmarshal error"), false, false, []⟩
      | .ok realtimeError =>
        if realtimeError.error != "" then
          ⟨.error (.errMsg realtimeError.error), false, false, []⟩
        else
          match msg.asSessionBegins with
          | .error _ => ⟨.error (.errMsg "unmarshal error"), false, false, []⟩
          | .ok session =>
            ⟨.ok (), true, true,
              if t.onSessionBegins then [.sessionBeginsEv session] else []⟩

/-! ## Connection query parameters -/

/-- Go `json.Marshal` of a single string, for strings whose characters need
no escaping beyond the quote and the backslash (no control characters and
none of the HTML-escaped `<`, `>`, `&`): the quoted string with `"` and `\`
backslash-escaped. -/
def jsonQuote (s : String) : String :=
  "\"" ++ String.join (s.toList.map fun ch =>
    if ch = '\"' then "\\\"" else if ch = '\\' then "\\\\" else ch.toString) ++ "\""

/-- Go `json.Marshal` of a `[]string` (used for the `word_boost`
parameter): the bracketed comma-separated list of JSON-quoted strings. -/
def jsonStringArray (ws : List String) : String :=
  "[" ++ String.intercalate "," (ws.map jsonQuote) ++ "]"

/-- The configuration a fully constructed `RealTimeClient` carries, as the
query construction and `Connect` read it. -/
structure RealTimeClientConfig where
  apiKey : String
  token : String
  sampleRate : Int
  encoding : String
  wordBoost : List String
  transcriber : RealTimeTranscriber

/-- Function `queryFromOptions` (`realtime.go`, lines 444–479) as the set of
key/value pairs put into `url.Values`: `token` when non-empty,
`sample_rate` when positive, `encoding` when non-empty, `word_boost`
(JSON-array-encoded) when non-empty, `disable_partial_transcripts=true`
exactly when no partial-transcript callback is registered, and
`enable_extra_session_information=true` exactly when a session-information
callback is registered.  An unset value contributes no pair at all. -/
def queryFromOptions (c : RealTimeClientConfig) : List (String × String) :=
  (if c.token != "" then [("token", c.token)] else []) ++
  (if c.sampleRate > 0 then [("sample_rate", toString c.sampleRate)] else []) ++
  (if c.encoding != "" then [("encoding", c.encoding)] else []) ++
  (if c.wordBoost.length > 0 then [("word_boost", jsonStringArray c.wordBoost)] else []) ++
  (if !c.transcriber.onPartialTranscript then [("disable_partial_transcripts", "true")] else []) ++
  (if c.transcriber.onSessionInformation then [("enable_extra_session_information", "true")] else [])

/-! ## Send -/

/-- What one `Send` call does: its return value and whether it wrote a
binary frame to the transport. -/
structure SendOut where
  result : Except GoError Unit
  wroteToTransport : Bool

/-- Function `Send` (`realtime.go`, lines 504–510): fail fast with
`ErrSessionClosed` when the transport is absent (`c.conn == nil`) or the
session-open flag is false; otherwise write the samples as one binary
frame, returning the transport's result.  `connPresent` embeds
`c.conn != nil`; `writeResult` is what `c.conn.Write` would return. -/
def Send (connPresent : Bool) (sessionOpen : Bool)
    (writeResult : Except GoError Unit) : SendOut :=
  if !connPresent || !sessionOpen then
    ⟨.error ErrSessionClosed, false⟩
  else
    ⟨writeResult, true⟩

/-! ## Disconnect

Two views of `Disconnect` (`realtime.go`, lines 483–495).  The first is the
sequential action trace: which of the three effects (terminate-session
write, `<-c.done` wait, normal-closure close) run, and the returned error —
or the nil-transport panic, when the client was never connected.  The
second is a small-step semantics exposing that the `<-c.done` receive
blocks until the dispatcher's send is ready and consults nothing else — in
particular not the context. -/

/-- The three externally visible effects a `Disconnect` call can perform,
in program order. -/
inductive DiscAction where
  | writeTerminate
  | waitDone
  | closeNormal
  deriving DecidableEq, Repr

/-- The action trace and return value of `Disconnect` (`realtime.go`,
lines 483–495).  `connPresent` embeds `c.conn != nil`.  On a never-connected
client `c.conn` is nil and `wsjson.Write(ctx, c.conn, terminate)`
dereferences the nil `*websocket.Conn` inside the library (nhooyr.io
v1.8.7 has no nil guard on the write path and the SDK has no `recover`):
the call panics and returns nothing, embedded as `none`.  With a transport
present: write `{"terminate_session": true}`; on write failure return that
error at once (no close); otherwise optionally block on `c.done`, then
always close the transport with `StatusNormalClosure`, returning the
close's result. -/
def disconnectRun (connPresent : Bool) (writeResult : Except GoError Unit)
    (wait : Bool) (closeResult : Except GoError Unit) :
    Option (List DiscAction × Except GoError Unit) :=
  if !connPresent then
    none
  else
    match writeResult with
    | .error e => some ([.writeTerminate], .error e)
    | .ok _ =>
        some ([.writeTerminate] ++ (if wait then [.waitDone] else []) ++ [.closeNormal],
          closeResult)

deriving instance DecidableEq for Except

/-- The program counter of an in-flight `Disconnect` call: about to write
the terminate message, blocked at `<-c.done`, about to close, or returned
with a result. -/
inductive DiscPC where
  | atWrite
  | atWait
  | atClose
  | finished (r : Except GoError Unit)
  deriving DecidableEq, Repr

/-- The environment at one scheduling instant of a blocked `Disconnect`:
whether the dispatcher's `c.done <- true` send is ready to pair with the
receive, and whether the caller's context has been cancelled or has passed
its deadline. -/
structure DiscEnv where
  doneFired : Bool
  ctxCancelled : Bool

/-- One step of `Disconnect` under environment `env`.  `none` means no step
is enabled (the call is blocked).  The `.atWait` case embeds the bare
channel receive `<-c.done` at line 491: it is enabled exactly when the
dispatcher's send is ready — the Go statement is not wrapped in a `select`
on `ctx.Done()`, so `env.ctxCancelled` does not occur in its guard. -/
def discNext (env : DiscEnv) (wait : Bool)
    (writeResult closeResult : Except GoError Unit) : DiscPC → Option DiscPC
  | .atWrite =>
      match writeResult with
      | .error e => some (.finished (.error e))
      | .ok _ => some (if wait then .atWait else .atClose)
  | .atWait => if env.doneFired then some .atClose else none
  | .atClose => some (.finished closeResult)
  | .finished _ => none

/-- Run `Disconnect` through a finite trace of scheduling instants: at each
instant, take the enabled step if there is one, otherwise stay blocked at
the same program counter. -/
def discRun (wait : Bool) (writeResult closeResult : Except GoError Unit) :
    List DiscEnv → DiscPC → DiscPC
  | [], pc => pc
  | env :: rest, pc =>
      match discNext env wait writeResult closeResult pc with
      | none => discRun wait writeResult closeResult rest pc
      | some pc2 => discRun wait writeResult closeResult rest pc2

/-! ## Client construction from functional options -/

/-- The `RealTimeClientOption` functional options of `realtime.go`
(lines 159–240).  `withHandler` embeds the deprecated `WithHandler`, which
also installs a transcriber. -/
inductive RealTimeClientOption where
  | withRealTimeBaseURL (rawurl : String)
  | withRealTimeAPIKey (apiKey : String)
  | withRealTimeAuthToken (token : String)
  | withHandler (t : RealTimeTranscriber)
  | withRealTimeTranscriber (t : RealTimeTranscriber)
  | withRealTimeSampleRate (sampleRate : Int)
  | withRealTimeWordBoost (wordBoost : List String)
  | withRealTimeEncoding (encoding : String)

/-- The client record while options are applied: exactly the fields of
`RealTimeClient` the options write, with the transcriber still nullable —
the Go struct's zero value leaves `transcriber` a nil pointer. -/
structure BuildState where
  baseURL : String
  apiKey : String
  token : String
  sampleRate : Int
  encoding : String
  wordBoost : List String
  transcriber : Option RealTimeTranscriber

/-- Applying one functional option to the client under construction.
`withRealTimeBaseURL` is modelled for URLs `url.Parse` accepts (on a parse
error the Go option leaves the field unchanged; none of the claims turn on
that case). -/
def applyOption (c : BuildState) (o : RealTimeClientOption) : BuildState :=
  match o with
  | .withRealTimeBaseURL rawurl => { c with baseURL := rawurl }
  | .withRealTimeAPIKey apiKey => { c with apiKey := apiKey }
  | .withRealTimeAuthToken token => { c with token := token }
  | .withHandler t => { c with transcriber := some t }
  | .withRealTimeTranscriber t => { c with transcriber := some t }
  | .withRealTimeSampleRate sampleRate => { c with sampleRate := sampleRate }
  | .withRealTimeWordBoost wordBoost => { c with wordBoost := wordBoost }
  | .withRealTimeEncoding encoding => { c with encoding := encoding }

/-- The client `NewRealTimeClientWithOptions` starts from (`realtime.go`,
lines 244–251): the default endpoint and Go zero values everywhere else —
in particular a nil transcriber. -/
def initialBuildState : BuildState :=
  { baseURL := "wss://api.assemblyai.com/v2/realtime/ws"
    apiKey := ""
    token := ""
    sampleRate := 0
    encoding := ""
    wordBoost := []
    transcriber := none }

/-- A fully constructed `RealTimeClient`: its endpoint, the query string
pairs computed at construction, and its configuration.  The transcriber
field is total: construction only completes after `queryFromOptions` has
dereferenced it. -/
structure RealTimeClient where
  baseURL : String
  rawQuery : List (String × String)
  config : RealTimeClientConfig

/-- Function `NewRealTimeClientWithOptions` (`realtime.go`, lines 243–260): fold the
options over the initial client, then compute
`client.baseURL.RawQuery = client.queryFromOptions()`.  `queryFromOptions`
reads `c.transcriber.OnPartialTranscript` unconditionally (line 469), so
when no option installed a transcriber the construction dereferences a nil
pointer and panics; the embedding returns `none` for that panic. -/
def NewRealTimeClientWithOptions (options : List RealTimeClientOption) :
    Option RealTimeClient :=
  let st := options.foldl applyOption initialBuildState
  match st.transcriber with
  | none => none
  | some t =>
      let cfg : RealTimeClientConfig :=
        ⟨st.apiKey, st.token, st.sampleRate, st.encoding, st.wordBoost, t⟩
      some ⟨st.baseURL, queryFromOptions cfg, cfg⟩

/-- Whether a functional option installs a transcriber (the only two that
write the `transcriber` field). -/
def setsTranscriber : RealTimeClientOption → Bool
  | .withHandler _ => true
  | .withRealTimeTranscriber _ => true
  | _ => false

/-! ## Concrete fixtures used to evaluate the definitions -/

/-- A transcriber with every callback registered. -/
def allCallbacks : RealTimeTranscriber :=
  ⟨true, true, true, true, true, true⟩

/-- A frame none of the decoders accept (for example a bare JSON string:
`wsjson.Read` accepts it, every `json.Unmarshal` into a struct fails). -/
def undecodableMsg : RawMsg :=
  ⟨.error (), .error (), .error (), .error (), .error (), .error (), .error ()⟩

/-- A handshake response that carries a non-empty `error` field and at the
same time parses as a well-formed `SessionBegins`. -/
def handshakeBothMsg : RawMsg :=
  { asRealTimeError := .ok ⟨"bad session"⟩
    asSessionBegins := .ok ⟨"2024-01-01T00:00:00Z", "SessionBegins", "sess-1"⟩
    asMessageType := .ok "SessionBegins"
    asFinalTranscript := .error ()
    asPartialTranscript := .error ()
    asSessionTerminated := .error ()
    asSessionInformation := .error () }

/-- The `Connect` environment delivering `handshakeBothMsg`. -/
def handshakeBothEnv : ConnectEnv :=
  ⟨.ok (), .ok handshakeBothMsg⟩

/-- A decoded `FinalTranscript` with non-empty text. -/
def fooFinalTranscript : FinalTranscript :=
  { audioEnd := 1500, audioStart := 0, confidence := 0.97, created := "t0"
    text := "Foo.", words := [], messageType := "FinalTranscript"
    punctuated := true, textFormatted := true }

/-- A frame carrying `fooFinalTranscript`. -/
def fooFinalMsg : RawMsg :=
  { asRealTimeError := .ok ⟨""⟩
    asSessionBegins := .error ()
    asMessageType := .ok "FinalTranscript"
    asFinalTranscript := .ok fooFinalTranscript
    asPartialTranscript := .error ()
    asSessionTerminated := .error ()
    asSessionInformation := .error () }

/-- A well-formed `SessionTerminated` frame. -/
def terminatedMsg : RawMsg :=
  { asRealTimeError := .ok ⟨""⟩
    asSessionBegins := .error ()
    asMessageType := .ok "SessionTerminated"
    asFinalTranscript := .error ()
    asPartialTranscript := .error ()
    asSessionTerminated := .ok ⟨"SessionTerminated"⟩
    asSessionInformation := .error () }

/-- A configuration with both credentials set. -/
def bothCredsConfig : RealTimeClientConfig :=
  ⟨"api-key-1", "tok-1", 0, "", [], allCallbacks⟩

/-! ## Theorems -/

/-- C2, counterexample.  The claim says that when decoding only the
`message_type` discriminator fails, the iteration is skipped and the loop
continues with the next read.  On a concrete frame whose discriminator
decode fails (with every callback registered, the session open), the
dispatcher instead exits the goroutine: the iteration's loop control is
`ret` (the Go `return` at line 381), not `cont`. -/
theorem discriminator_failure_counterexample :
    (dispatchStep allCallbacks true (.ok undecodableMsg)).ctl = .ret
    ∧ (dispatchStep allCallbacks true (.ok undecodableMsg)).ctl ≠ .cont
    ∧ (dispatchStep allCallbacks true (.ok undecodableMsg)).events = [.errorEv] :=
  ⟨rfl, by decide, rfl⟩

/-- C2, amended.  In every dispatcher iteration whose read succeeds but
whose `message_type` discriminator decode fails, the error callback (if
registered) is invoked and the dispatcher goroutine terminates (the loop
returns); the session-open flag and the termination signal are untouched. -/
theorem discriminator_failure_errors_and_returns
    (t : RealTimeTranscriber) (m : RawMsg)
    (h : m.asMessageType = .error ()) :
    dispatchStep t true (.ok m) =
      ⟨if t.onError then [.errorEv] else [], true, .ret, false⟩ := by
  simp [dispatchStep, h]

/-- C2, witness: the amended theorem at the concrete frame. -/
theorem discriminator_failure_errors_and_returns_witness :
    undecodableMsg.asMessageType = .error ()
    ∧ dispatchStep allCallbacks true (.ok undecodableMsg) =
        ⟨[.errorEv], true, .ret, false⟩ :=
  ⟨rfl, discriminator_failure_errors_and_returns allCallbacks undecodableMsg rfl⟩

/-- C3, counterexample.  The claim says the open→closed transition happens
whenever the dispatcher observes a `SessionTerminated` message or a
transport read error.  On a concrete transport read error (session open,
every callback registered), the dispatcher exits with the session flag
still `true`: no transition to closed is performed on the read-error
path. -/
theorem read_error_counterexample :
    (dispatchStep allCallbacks true .readErr).sessionOpen = true
    ∧ (dispatchStep allCallbacks true .readErr).ctl = .ret
    ∧ (dispatchStep allCallbacks true .readErr).events = [.errorEv]
    ∧ (dispatchStep allCallbacks true .readErr).doneSignal = false :=
  ⟨rfl, rfl, rfl, rfl⟩

/-- Helper: a dispatcher iteration that decodes `SessionTerminated` closes
the session flag. -/
theorem dispatch_terminated_closes (t : RealTimeTranscriber) (m : RawMsg)
    (s : SessionTerminated)
    (hmt : m.asMessageType = .ok MessageTypeSessionTerminated)
    (hd : m.asSessionTerminated = .ok s) :
    (dispatchStep t true (.ok m)).sessionOpen = false := by
  simp [dispatchStep, hmt, hd, MessageTypeFinalTranscript,
    MessageTypePartialTranscript, MessageTypeSessionTerminated]

/-- C3, amended.  Starting from an open session, a dispatcher iteration
moves the flag to closed exactly when its frame decodes (discriminator and
body) as `SessionTerminated`; a transport read error leaves the flag open
and exits.  Once the flag is closed the next iteration returns immediately
without events, flag writes or signals, so the dispatcher performs the
open→closed transition at most once, and no other part of the loop writes
the flag. -/
theorem session_close_transition (t : RealTimeTranscriber) (m : RawMsg) (r : ReadResult) :
    ((dispatchStep t true (.ok m)).sessionOpen = false ↔
      (m.asMessageType = .ok MessageTypeSessionTerminated
        ∧ ∃ s, m.asSessionTerminated = .ok s))
    ∧ (dispatchStep t true .readErr).sessionOpen = true
    ∧ dispatchStep t false r = ⟨[], false, .ret, false⟩ := by
  refine ⟨?_, by simp [dispatchStep], by simp [dispatchStep]⟩
  cases hmt : m.asMessageType with
  | error u => simp [dispatchStep, hmt]
  | ok messageType =>
    by_cases hf : messageType = MessageTypeFinalTranscript
    · subst hf
      cases hd : m.asFinalTranscript <;>
        simp [dispatchStep, hmt, hd, MessageTypeFinalTranscript,
          MessageTypeSessionTerminated]
    · by_cases hp : messageType = MessageTypePartialTranscript
      · subst hp
        cases hd : m.asPartialTranscript <;>
          simp [dispatchStep, hmt, hd, MessageTypeFinalTranscript,
            MessageTypePartialTranscript, MessageTypeSessionTerminated]
      · by_cases ht : messageType = MessageTypeSessionTerminated
        · subst ht
          cases hd : m.asSessionTerminated <;>
            simp [dispatchStep, hmt, hd, MessageTypeFinalTranscript,
              MessageTypePartialTranscript, MessageTypeSessionTerminated]
        · by_cases hi : messageType = MessageTypeSessionInformation
          · subst hi
            cases hd : m.asSessionInformation <;>
              simp [dispatchStep, hmt, hd, MessageTypeFinalTranscript,
                MessageTypePartialTranscript, MessageTypeSessionTerminated,
                MessageTypeSessionInformation]
          · simp [dispatchStep, hmt, hf, hp, ht, hi]

/-- C7.  For every received `PartialTranscript` or `FinalTranscript` frame
that decodes successfully, the events of that dispatcher iteration are
exactly one invocation of the corresponding callback with the decoded
transcript when the text is non-empty and the callback is registered, and
none at all otherwise — in particular an empty-text transcript is
swallowed, and a delivered one is delivered exactly once. -/
theorem transcript_delivery (t : RealTimeTranscriber) (m : RawMsg) :
    (∀ tr, m.asMessageType = .ok MessageTypeFinalTranscript →
      m.asFinalTranscript = .ok tr →
      (dispatchStep t true (.ok m)).events =
        if tr.text ≠ "" ∧ t.onFinalTranscript = true then [.finalTranscriptEv tr] else [])
    ∧ (∀ tr, m.asMessageType = .ok MessageTypePartialTranscript →
      m.asPartialTranscript = .ok tr →
      (dispatchStep t true (.ok m)).events =
        if tr.text ≠ "" ∧ t.onPartialTranscript = true then [.partialTranscriptEv tr] else []) := by
  constructor
  · intro tr hmt hd
    by_cases he : tr.text = "" <;>
      by_cases hr : t.onFinalTranscript = true <;>
        simp [dispatchStep, hmt, hd, he, hr, MessageTypeFinalTranscript]
  · intro tr hmt hd
    by_cases he : tr.text = "" <;>
      by_cases hr : t.onPartialTranscript = true <;>
        simp [dispatchStep, hmt, hd, he, hr, MessageTypeFinalTranscript,
          MessageTypePartialTranscript]

/-- C5.  Whenever the transport is absent (`c.conn == nil`) or the
session-open flag is false, `Send` returns `ErrSessionClosed` and performs
no transport write; in particular, after a dispatcher iteration decodes
`SessionTerminated` (which closes the flag), every subsequent `Send`
through that flag returns `ErrSessionClosed` and writes nothing. -/
theorem send_fails_fast (connPresent sessionOpen : Bool)
    (writeResult : Except GoError Unit)
    (h : connPresent = false ∨ sessionOpen = false) :
    Send connPresent sessionOpen writeResult = ⟨.error ErrSessionClosed, false⟩
    ∧ ∀ (t : RealTimeTranscriber) (m : RawMsg) (s : SessionTerminated)
        (cp : Bool) (w : Except GoError Unit),
        m.asMessageType = .ok MessageTypeSessionTerminated →
        m.asSessionTerminated = .ok s →
        Send cp ((dispatchStep t true (.ok m)).sessionOpen) w =
          ⟨.error ErrSessionClosed, false⟩ := by
  constructor
  · rcases h with h | h <;> subst h <;> simp [Send]
  · intro t m s cp w hmt hd
    have hclosed : (dispatchStep t true (.ok m)).sessionOpen = false :=
      dispatch_terminated_closes t m s hmt hd
    rw [hclosed]
    simp [Send]

/-- C5, witness: `Send` with no transport (never connected), flag open. -/
theorem send_fails_fast_witness :
    ((false : Bool) = false ∨ (true : Bool) = false)
    ∧ Send false true (.ok ()) = ⟨.error ErrSessionClosed, false⟩ :=
  ⟨Or.inl rfl, (send_fails_fast false true (.ok ()) (Or.inl rfl)).1⟩

/-- Helper: the dispatcher goroutine is spawned exactly when `Connect`
returns success. -/
theorem connect_dispatcher_iff_ok (t : RealTimeTranscriber) (env : ConnectEnv) :
    ((connectHandshake t env).dispatcherStarted = true ↔
      (connectHandshake t env).result = .ok ()) := by
  unfold connectHandshake
  repeat' split
  all_goals simp

/-- C4.  `Connect` reads exactly one handshake message (the single
`readResult` of its environment) and attempts error-envelope decoding
first: whenever that message carries a non-empty `error` field — whatever
else it parses as — `Connect` returns that error, the session is not
marked open, and no dispatcher goroutine is spawned; and in every
environment, the dispatcher goroutine is spawned exactly when the
handshake succeeds (one `go` statement per successful connect). -/
theorem connect_error_envelope_precedence (t : RealTimeTranscriber)
    (env : ConnectEnv) (m : RawMsg) (realtimeError : RealTimeError)
    (hdial : env.dialResult = .ok ())
    (hread : env.readResult = .ok m)
    (herr : m.asRealTimeError = .ok realtimeError)
    (hne : realtimeError.error ≠ "") :
    (connectHandshake t env).result = .error (.errMsg realtimeError.error)
    ∧ (connectHandshake t env).sessionOpen = false
    ∧ (connectHandshake t env).dispatcherStarted = false
    ∧ ∀ (t2 : RealTimeTranscriber) (env2 : ConnectEnv),
        ((connectHandshake t2 env2).dispatcherStarted = true ↔
          (connectHandshake t2 env2).result = .ok ()) := by
  refine ⟨?_, ?_, ?_, fun t2 env2 => connect_dispatcher_iff_ok t2 env2⟩ <;>
    simp [connectHandshake, hdial, hread, herr, hne]

/-- C4, witness: a handshake message that carries both a non-empty `error`
field and a well-formed `SessionBegins` body is treated as a handshake
failure. -/
theorem connect_error_envelope_precedence_witness :
    handshakeBothEnv.dialResult = .ok ()
    ∧ handshakeBothEnv.readResult = .ok handshakeBothMsg
    ∧ handshakeBothMsg.asRealTimeError = .ok ⟨"bad session"⟩
    ∧ ("bad session" : String) ≠ ""
    ∧ handshakeBothMsg.asSessionBegins =
        .ok ⟨"2024-01-01T00:00:00Z", "SessionBegins", "sess-1"⟩
    ∧ (connectHandshake allCallbacks handshakeBothEnv).result =
        .error (.errMsg "bad session")
    ∧ (connectHandshake allCallbacks handshakeBothEnv).sessionOpen = false
    ∧ (connectHandshake allCallbacks handshakeBothEnv).dispatcherStarted = false := by
  have h := connect_error_envelope_precedence allCallbacks handshakeBothEnv
    handshakeBothMsg ⟨"bad session"⟩ rfl rfl rfl (by decide)
  exact ⟨rfl, rfl, rfl, by decide, rfl, h.1, h.2.1, h.2.2.1⟩

/-- C1, counterexample.  The claim says a `Disconnect(ctx, true)` whose
terminate write succeeded returns a deadline/cancellation error when `ctx`
is cancelled, rather than blocking indefinitely.  In the environment where
the context is cancelled and the termination signal has not fired, the
receive `<-c.done` has no enabled step at all (`discNext` is `none`: the
receive is a bare channel operation, not a `select` on `ctx.Done()`), and
a run of any length through that constant environment stays parked at the
wait — `Disconnect` never returns. -/
theorem disconnect_cancel_counterexample :
    discNext ⟨false, true⟩ true (.ok ()) (.ok ()) .atWait = none
    ∧ discRun true (.ok ()) (.ok ())
        (List.replicate 8 ⟨false, true⟩) .atWrite = .atWait := by
  exact ⟨rfl, by decide⟩

/-- Helper: a `Disconnect` run parked at `<-c.done` only finishes if some
instant of the trace had the termination signal ready. -/
theorem discRun_atWait_finished (closeResult : Except GoError Unit)
    (r : Except GoError Unit) :
    ∀ envs : List DiscEnv,
      discRun true (.ok ()) closeResult envs .atWait = .finished r →
      ∃ env ∈ envs, env.doneFired = true := by
  intro envs
  induction envs with
  | nil => intro h; simp [discRun] at h
  | cons env rest ih =>
    intro h
    by_cases hd : env.doneFired
    · exact ⟨env, List.mem_cons_self env rest, hd⟩
    · simp only [discRun, discNext] at h
      rw [if_neg (by simpa using hd)] at h
      obtain ⟨e, he, hf⟩ := ih h
      exact ⟨e, List.mem_cons_of_mem env he, hf⟩

/-- C1, amended.  A `Disconnect(ctx, waitForTermination=true)` call whose
terminate-session write succeeds returns only after the termination signal
fires (the dispatcher having handled `SessionTerminated`): every finite
run that reaches a return passes an instant at which the signal was ready.
Context cancellation does not unblock the wait — the receive on the done
channel does not observe the context, so a cancelled context leaves the
call blocked rather than returning a deadline/cancellation error. -/
theorem disconnect_wait_returns_only_after_signal
    (closeResult : Except GoError Unit) (r : Except GoError Unit)
    (envs : List DiscEnv)
    (h : discRun true (.ok ()) closeResult envs .atWrite = .finished r) :
    ∃ env ∈ envs, env.doneFired = true := by
  cases envs with
  | nil => simp [discRun] at h
  | cons env rest =>
    simp only [discRun, discNext] at h
    obtain ⟨e, he, hf⟩ := discRun_atWait_finished closeResult r rest h
    exact ⟨e, List.mem_cons_of_mem env he, hf⟩

/-- C1, witness: a run in which the signal fires at the second instant
reaches the return, and that run indeed contains an instant with the
signal ready. -/
theorem disconnect_wait_returns_only_after_signal_witness :
    discRun true (.ok ()) (.ok ())
        [⟨false, false⟩, ⟨true, false⟩, ⟨false, false⟩] .atWrite =
      .finished (.ok ())
    ∧ ∃ env ∈ [(⟨false, false⟩ : DiscEnv), ⟨true, false⟩, ⟨false, false⟩],
        env.doneFired = true :=
  ⟨rfl, disconnect_wait_returns_only_after_signal (.ok ()) (.ok ())
    [⟨false, false⟩, ⟨true, false⟩, ⟨false, false⟩] rfl⟩

/-- C9, counterexample.  The claim says that when the terminate-session
write fails — including when no transport was ever established because
connect failed — the error is returned immediately.  On the concrete
never-connected client (nil transport), `Disconnect` does not return at
all: the write dereferences the nil connection and panics (`none` in the
embedding), so no error value is ever produced. -/
theorem disconnect_nil_conn_counterexample :
    disconnectRun false (.ok ()) true (.ok ()) = none
    ∧ ∀ (e : GoError),
        disconnectRun false (.ok ()) true (.ok ()) ≠ some ([.writeTerminate], .error e) :=
  ⟨rfl, fun e h => by simp [disconnectRun] at h⟩

/-- C9, amended.  On a client whose transport was established: if the
terminate-session write fails, `Disconnect` returns that error with no
close attempted — its action trace is the write alone; on a successful
write the transport close with normal-closure status is always the final
action, whether or not waiting for termination was requested, and the
close's result is what `Disconnect` returns.  On a never-connected client
(nil transport), `Disconnect` panics in the terminate-session write and
returns nothing. -/
theorem disconnect_write_close_or_panic (wait : Bool) (e : GoError)
    (closeResult : Except GoError Unit) :
    disconnectRun true (.error e) wait closeResult = some ([.writeTerminate], .error e)
    ∧ DiscAction.closeNormal ∉ [DiscAction.writeTerminate]
    ∧ (∀ (wait2 : Bool) (closeResult2 : Except GoError Unit),
        ∃ acts, disconnectRun true (.ok ()) wait2 closeResult2 = some (acts, closeResult2)
          ∧ acts.getLast? = some DiscAction.closeNormal)
    ∧ ∀ (w : Except GoError Unit) (wait3 : Bool) (c3 : Except GoError Unit),
        disconnectRun false w wait3 c3 = none := by
  refine ⟨rfl, by decide, ?_, ?_⟩
  · intro wait2 closeResult2
    cases wait2 <;> exact ⟨_, rfl, rfl⟩
  · intro w wait3 c3
    simp [disconnectRun]

/-- Helper: the value of each connection query parameter as a function of
the configuration. -/
theorem queryFromOptions_lookup (c : RealTimeClientConfig) :
    List.lookup "token" (queryFromOptions c) =
        (if c.token = "" then none else some c.token)
    ∧ List.lookup "sample_rate" (queryFromOptions c) =
        (if c.sampleRate > 0 then some (toString c.sampleRate) else none)
    ∧ List.lookup "encoding" (queryFromOptions c) =
        (if c.encoding = "" then none else some c.encoding)
    ∧ List.lookup "word_boost" (queryFromOptions c) =
        (if c.wordBoost = [] then none else some (jsonStringArray c.wordBoost))
    ∧ (List.lookup "disable_partial_transcripts" (queryFromOptions c) = some "true" ↔
        c.transcriber.onPartialTranscript = false)
    ∧ (List.lookup "enable_extra_session_information" (queryFromOptions c) = some "true" ↔
        c.transcriber.onSessionInformation = true) := by
  unfold queryFromOptions
  split_ifs <;>
    simp_all [List.lookup, List.length_pos]

/-- C8.  Query-parameter construction is a deterministic function of the
configuration: `disable_partial_transcripts=true` is present exactly when
no partial-transcript callback is registered,
`enable_extra_session_information=true` exactly when a session-information
callback is registered, and `token`, `sample_rate`, `encoding` and
`word_boost` are present exactly when set to a non-zero value (an unset
value omits the parameter rather than sending an empty one); `word_boost`
carries the JSON array encoding, on `["foo", "bar"]` literally
`["foo","bar"]`. -/
theorem query_construction (c : RealTimeClientConfig) :
    List.lookup "token" (queryFromOptions c) =
        (if c.token = "" then none else some c.token)
    ∧ List.lookup "sample_rate" (queryFromOptions c) =
        (if c.sampleRate > 0 then some (toString c.sampleRate) else none)
    ∧ List.lookup "encoding" (queryFromOptions c) =
        (if c.encoding = "" then none else some c.encoding)
    ∧ List.lookup "word_boost" (queryFromOptions c) =
        (if c.wordBoost = [] then none else some (jsonStringArray c.wordBoost))
    ∧ (List.lookup "disable_partial_transcripts" (queryFromOptions c) = some "true" ↔
        c.transcriber.onPartialTranscript = false)
    ∧ (List.lookup "enable_extra_session_information" (queryFromOptions c) = some "true" ↔
        c.transcriber.onSessionInformation = true)
    ∧ jsonStringArray ["foo", "bar"] = "[\"foo\",\"bar\"]" := by
  have h := queryFromOptions_lookup c
  exact ⟨h.1, h.2.1, h.2.2.1, h.2.2.2.1, h.2.2.2.2.1, h.2.2.2.2.2, rfl⟩

/-- C6, counterexample.  The claim says that when both a long-lived API
key and a temporary token are configured, the `Authorization` header is
omitted.  On the concrete client configured with both
(`apiKey = "api-key-1"`, `token = "tok-1"`), `Connect` sets the header to
the API key — `connectAuthHeader` is `some "api-key-1"`, not `none` —
while the token is also carried as the `token` query parameter. -/
theorem auth_header_counterexample :
    connectAuthHeader bothCredsConfig.apiKey = some "api-key-1"
    ∧ connectAuthHeader bothCredsConfig.apiKey ≠ none
    ∧ List.lookup "token" (queryFromOptions bothCredsConfig) = some "tok-1" :=
  ⟨rfl, by decide, rfl⟩

/-- C6, amended.  The token, when configured, is carried as the `token`
query parameter, but it does not suppress the `Authorization` header: the
header is set to the API key whenever the API key is non-empty — also when
a token is configured — and omitted only when the API key is empty. -/
theorem credential_resolution (apiKey : String) (c : RealTimeClientConfig) :
    connectAuthHeader apiKey = (if apiKey = "" then none else some apiKey)
    ∧ List.lookup "token" (queryFromOptions c) =
        (if c.token = "" then none else some c.token) := by
  constructor
  · by_cases h : apiKey = "" <;> simp [connectAuthHeader, h]
  · exact (queryFromOptions_lookup c).1

/-- Helper: folding options none of which installs a transcriber leaves
the transcriber field nil. -/
theorem foldl_applyOption_no_transcriber :
    ∀ (options : List RealTimeClientOption) (st : BuildState),
      st.transcriber = none →
      (∀ o ∈ options, setsTranscriber o = false) →
      (options.foldl applyOption st).transcriber = none
  | [], _, hst, _ => hst
  | o :: rest, st, hst, h => by
    simp only [List.foldl_cons]
    apply foldl_applyOption_no_transcriber rest (applyOption st o)
    · have ho : setsTranscriber o = false := h o (List.mem_cons_self o rest)
      cases o <;> simp_all [applyOption, setsTranscriber]
    · intro o2 ho2
      exact h o2 (List.mem_cons_of_mem o ho2)

/-- C10.  When no supplied option installs a transcriber,
`NewRealTimeClientWithOptions` dereferences the nil transcriber inside
`queryFromOptions` and panics instead of returning a client (the embedding
returns `none` for the panic); conversely every successfully constructed
client was built with at least one transcriber-installing option, and its
`transcriber` field is total by construction. -/
theorem new_client_requires_transcriber (options : List RealTimeClientOption)
    (h : ∀ o ∈ options, setsTranscriber o = false) :
    NewRealTimeClientWithOptions options = none
    ∧ ∀ (options2 : List RealTimeClientOption) (client : RealTimeClient),
        NewRealTimeClientWithOptions options2 = some client →
        ∃ o ∈ options2, setsTranscriber o = true := by
  constructor
  · have hnone := foldl_applyOption_no_transcriber options initialBuildState rfl h
    simp [NewRealTimeClientWithOptions, hnone]
  · intro options2 client hc
    by_contra hno
    push_neg at hno
    have hall : ∀ o ∈ options2, setsTranscriber o = false := by
      intro o ho
      simpa using hno o ho
    have hnone := foldl_applyOption_no_transcriber options2 initialBuildState rfl hall
    simp [NewRealTimeClientWithOptions, hnone] at hc

/-- C10, witness: constructing with only an API-key option panics. -/
theorem new_client_requires_transcriber_witness :
    (∀ o ∈ [RealTimeClientOption.withRealTimeAPIKey "key"], setsTranscriber o = false)
    ∧ NewRealTimeClientWithOptions [RealTimeClientOption.withRealTimeAPIKey "key"] = none := by
  have h : ∀ o ∈ [RealTimeClientOption.withRealTimeAPIKey "key"],
      setsTranscriber o = false := by
    simp [setsTranscriber]
  exact ⟨h, (new_client_requires_transcriber _ h).1⟩

end AssemblyAI
